import Mathlib

/-!
# Verification of the `BatchFlusher` batch accumulator (src/src/batch.ts)

Shallow embedding of the `BatchFlusher` class: an in-memory batch
accumulator with a capped ordered buffer, optional interval and
count-threshold flush triggers, a running/flushing status pair and a
publish/subscribe notification channel.

Conventions of the embedding:
* TypeScript `number` config fields that may be `undefined` become
  `Option Nat` (`none` = `undefined`).
* The asynchronous flush callback is an abstract function
  `List α → CbResult`: it either resolves to a boolean or rejects with a
  stringified error.
* Each operation returns, next to the successor state, the list of state
  notifications it emits (in order) so that the subscription contract can
  be stated.
* Armed `setTimeout` timers are counted in `pendingTimers`; `refPending`
  records whether the timer currently referenced by the `#flushTimer`
  field is still armed (only that one can be cancelled by `clearTimeout`).
-/

namespace Batch

/-- Stored configuration (`#config`, batch.ts lines 105-109).
`flushIntervalMs = none` or `some 0` disables the timer trigger;
`flushThreshold = none` or `some 0` disables the count trigger.
The logger is opaque; we keep only an optional handle. -/
structure BatchFlusherConfig where
  flushIntervalMs : Option Nat
  maxBatchSize : Nat
  flushThreshold : Option Nat
  strictFlush : Bool
  logger : Option Nat
deriving Repr, DecidableEq

/-- The initial value of `#config` (batch.ts lines 105-109). -/
def defaultConfig : BatchFlusherConfig :=
  { flushIntervalMs := some 1000
    maxBatchSize := 100
    flushThreshold := none
    strictFlush := false
    logger := none }

/-- A partial configuration as passed to `configure`: `none` means the key
is absent or explicitly `undefined` (skipped by the `v !== undefined`
guard, batch.ts line 329). -/
structure ConfigUpdate where
  flushIntervalMs : Option Nat := none
  maxBatchSize : Option Nat := none
  flushThreshold : Option Nat := none
  strictFlush : Option Bool := none
  logger : Option Nat := none
deriving Repr, DecidableEq

/-- `configure` (batch.ts lines 327-333): every defined key of the partial
config overwrites the stored value, key by key; undefined keys are no-ops. -/
def applyConfig (cfg : BatchFlusherConfig) (p : ConfigUpdate) : BatchFlusherConfig :=
  let c1 := match p.flushIntervalMs with
    | some v => { cfg with flushIntervalMs := some v }
    | none => cfg
  let c2 := match p.maxBatchSize with
    | some v => { c1 with maxBatchSize := v }
    | none => c1
  let c3 := match p.flushThreshold with
    | some v => { c2 with flushThreshold := some v }
    | none => c2
  let c4 := match p.strictFlush with
    | some v => { c3 with strictFlush := v }
    | none => c3
  match p.logger with
    | some v => { c4 with logger := some v }
    | none => c4

/-- The snapshot handed to subscribers (`BatchFlusherState`, batch.ts
lines 8-15, built by `#getState`, lines 118-124). -/
structure BatchFlusherState where
  size : Nat
  isRunning : Bool
  isFlushing : Bool
deriving Repr, DecidableEq

/-- The mutable state of one `BatchFlusher` instance (batch.ts lines
105-115).  `pendingTimers` counts the armed one-shot timers; `refPending`
says whether the timer referenced by `#flushTimer` is among them. -/
structure BatchState (α : Type) where
  config : BatchFlusherConfig
  items : List α
  running : Bool
  flushing : Bool
  pendingTimers : Nat
  refPending : Bool
deriving Repr, DecidableEq

/-- `#getState` (batch.ts lines 118-124). -/
def getState {α : Type} (s : BatchState α) : BatchFlusherState :=
  { size := s.items.length, isRunning := s.running, isFlushing := s.flushing }

/-- JavaScript `arr.slice(-n)`: the last `n` elements, except that
`slice(-0)` is `slice(0)`, the whole array (batch.ts line 191). -/
def sliceLast {α : Type} (n : Nat) (l : List α) : List α :=
  if n = 0 then l else l.drop (l.length - n)

/-- The last `n` elements of a list (specification-side helper). -/
def takeLast {α : Type} (n : Nat) (l : List α) : List α :=
  l.drop (l.length - n)

/-- The buffer effect of `add` (batch.ts lines 186-195): push to the tail,
then if the length exceeds `maxBatchSize` keep only the most recent
`maxBatchSize` items. -/
def addBuffer {α : Type} (max : Nat) (buf : List α) (x : α) : List α :=
  let b := buf ++ [x]
  if b.length > max then sliceLast max b else b

/-- The threshold-trigger test of `add` (batch.ts lines 200-201):
`threshold && this.#items.length >= threshold`, evaluated on the
post-truncate length.  A falsy threshold (`undefined` or `0`) never
triggers. -/
def thresholdTrigger (threshold : Option Nat) (len : Nat) : Bool :=
  match threshold with
  | none => false
  | some 0 => false
  | some (t + 1) => decide (len ≥ t + 1)

/-- Result of `add` (batch.ts lines 185-207): successor state, the emitted
notifications, and whether the threshold trigger fired (spawning the
fire-and-forget `#doFlush`). -/
structure AddResult (α : Type) where
  state : BatchState α
  notifs : List BatchFlusherState
  triggered : Bool

/-- `add(item)` without the spawned flush (batch.ts lines 185-207):
append, apply the safety cap, notify once, then evaluate the threshold
trigger.  `add` itself returns synchronously; the triggered flush is
fire-and-forget. -/
def addStep {α : Type} (s : BatchState α) (x : α) : AddResult α :=
  let items2 := addBuffer s.config.maxBatchSize s.items x
  let s1 : BatchState α := { s with items := items2 }
  { state := s1
    notifs := [getState s1]
    triggered := thresholdTrigger s.config.flushThreshold items2.length }

/-- Buffer contents after a sequence of `add` calls, starting from a given
buffer. -/
def addAll {α : Type} (max : Nat) (buf : List α) (seq : List α) : List α :=
  seq.foldl (addBuffer max) buf

/-- Outcome of awaiting the caller-supplied flush callback: it either
resolves to a boolean or rejects/throws; a thrown value is carried as its
stringification (which is all the code ever does with it). -/
inductive CbResult where
  | ok (b : Bool)
  | thrown (e : String)
deriving Repr, DecidableEq

/-- Result of one `flush()` call (batch.ts lines 237-255): successor
state, emitted notifications, callback invocations made (each with its
argument list), and the value returned / error propagated. -/
structure FlushResult (α : Type) where
  state : BatchState α
  notifs : List BatchFlusherState
  calls : List (List α)
  result : CbResult

/-- The synchronous head of `flush()` on a non-empty buffer (batch.ts
lines 242-245): snapshot the buffer, clear it, set `flushing`, notify.
Returns the new state and the snapshot handed to the callback. -/
def flushBegin {α : Type} (s : BatchState α) : BatchState α × List α :=
  ({ s with items := [], flushing := true }, s.items)

/-- The `finally` block of `flush()` (batch.ts lines 251-253): reset
`flushing` and notify; runs on success and on thrown failure alike. -/
def flushFinish {α : Type} (s : BatchState α) : BatchState α :=
  { s with flushing := false }

/-- `flush()` with no interleaving during the await (batch.ts lines
237-255).  An empty buffer short-circuits to `true` with no notification,
no callback call and no state change.  Otherwise: snapshot, clear, set
`flushing`, notify, invoke the callback, then in `finally` reset
`flushing` and notify; the callback's resolution (or rejection) is
returned/propagated unchanged. -/
def flushRun {α : Type} (s : BatchState α) (cb : List α → CbResult) :
    FlushResult α :=
  if s.items.isEmpty then
    { state := s, notifs := [], calls := [], result := .ok true }
  else
    let (s1, snap) := flushBegin s
    let r := cb snap
    let s2 := flushFinish s1
    { state := s2
      notifs := [getState s1, getState s2]
      calls := [snap]
      result := r }

/-- Result of the internal `#doFlush` wrapper (batch.ts lines 257-268):
additionally records whether the failure was rethrown into the
fire-and-forget context (`rethrown`) or logged and swallowed
(`warnLogged`, carrying the warn arguments `"[BatchFlusher] Flush error
ignored"` and the stringified error). -/
structure DoFlushResult (α : Type) where
  state : BatchState α
  notifs : List BatchFlusherState
  calls : List (List α)
  rethrown : Option String
  warnLogged : Option (String × String)

/-- `#doFlush` (batch.ts lines 257-268): awaits `flush()`, catches a
failure, rethrows it when `strictFlush` is set and otherwise logs it at
warning level and swallows it.  The rethrow happens in a context no
caller awaits, so it never returns to the caller of `add` or of the timer
tick. -/
def doFlush {α : Type} (s : BatchState α) (cb : List α → CbResult) :
    DoFlushResult α :=
  let fr := flushRun s cb
  match fr.result with
  | .ok _ =>
      { state := fr.state, notifs := fr.notifs, calls := fr.calls
        rethrown := none, warnLogged := none }
  | .thrown e =>
      if s.config.strictFlush then
        { state := fr.state, notifs := fr.notifs, calls := fr.calls
          rethrown := some e, warnLogged := none }
      else
        { state := fr.state, notifs := fr.notifs, calls := fr.calls
          rethrown := none
          warnLogged := some ("[BatchFlusher] Flush error ignored", e) }

/-- Result of `add` together with the threshold-triggered `#doFlush` run
to completion (the sequential schedule: nothing else interleaves). -/
structure AddFullResult (α : Type) where
  state : BatchState α
  notifs : List BatchFlusherState
  calls : List (List α)
  rethrown : Option String
  warnLogged : Option (String × String)
  triggered : Bool

/-- `add(item)` followed by the `#doFlush` it spawns when the threshold
trigger fires (batch.ts lines 185-207 with 257-268).  `add` itself
returns `void` synchronously and never awaits the spawned flush: the
`rethrown` field is a background (unobserved) failure channel, not a
value or exception delivered to `add`'s caller. -/
def addFull {α : Type} (s : BatchState α) (x : α) (cb : List α → CbResult) :
    AddFullResult α :=
  let ar := addStep s x
  if ar.triggered then
    let dr := doFlush ar.state cb
    { state := dr.state, notifs := ar.notifs ++ dr.notifs
      calls := dr.calls, rethrown := dr.rethrown
      warnLogged := dr.warnLogged, triggered := true }
  else
    { state := ar.state, notifs := ar.notifs, calls := []
      rethrown := none, warnLogged := none, triggered := false }

/-- `#scheduleFlush` (batch.ts lines 270-279): when the configured
interval is falsy (`undefined` or `0`) do nothing; otherwise arm a fresh
one-shot timer and point `#flushTimer` at it.  The previously referenced
timer, if any, is NOT cleared — only the reference is overwritten. -/
def scheduleFlush {α : Type} (s : BatchState α) : BatchState α :=
  match s.config.flushIntervalMs with
  | none => s
  | some 0 => s
  | some (_ + 1) =>
      { s with pendingTimers := s.pendingTimers + 1, refPending := true }

/-- `clearTimeout(this.#flushTimer)` (batch.ts lines 276 and 303): cancels
the one timer currently referenced, when it is still armed; a no-op
otherwise. -/
def clearTimer {α : Type} (s : BatchState α) : BatchState α :=
  if s.refPending then
    { s with pendingTimers := s.pendingTimers - 1, refPending := false }
  else s

/-- `start()` (batch.ts lines 287-292): set `running`, notify, then
`#scheduleFlush` — with no guard against already running and no
cancellation of an already armed timer. -/
def startStep {α : Type} (s : BatchState α) : BatchState α × List BatchFlusherState :=
  let s1 : BatchState α := { s with running := true }
  (scheduleFlush s1, [getState s1])

/-- `stop()` (batch.ts lines 300-305): clear `running`, cancel the
referenced timer, notify. -/
def stopStep {α : Type} (s : BatchState α) : BatchState α × List BatchFlusherState :=
  let s1 := clearTimer { s with running := false }
  (s1, [getState s1])

/-- `reset()` (batch.ts lines 213-216): clear the buffer, notify; the
flush callback is not invoked. -/
def resetStep {α : Type} (s : BatchState α) : BatchState α × List BatchFlusherState :=
  let s1 : BatchState α := { s with items := [] }
  (s1, [getState s1])

/-- `configure(partial)` as an operation on the instance (batch.ts lines
327-333): merges the partial config and does nothing else — in
particular it emits no notification. -/
def configureStep {α : Type} (s : BatchState α) (p : ConfigUpdate) :
    BatchState α × List BatchFlusherState :=
  ({ s with config := applyConfig s.config p }, [])

/-- `drain()` (batch.ts lines 314-319): await `flush()`, then `stop()`,
and return the flush result.  When `flush()` propagates a failure the
`await` rethrows before `stop()` is reached, so the stopped/timer state
is left untouched. -/
def drainRun {α : Type} (s : BatchState α) (cb : List α → CbResult) :
    FlushResult α :=
  let fr := flushRun s cb
  match fr.result with
  | .ok b =>
      let (s2, n2) := stopStep fr.state
      { state := s2, notifs := fr.notifs ++ n2, calls := fr.calls
        result := .ok b }
  | .thrown e =>
      { state := fr.state, notifs := fr.notifs, calls := fr.calls
        result := .thrown e }

/-- The constructor (batch.ts lines 140-151): fresh private fields,
`configure(config)` merged over the defaults, then `start()` when
`autostart` (the default). -/
def newBatchFlusher (α : Type) (cfg : ConfigUpdate) (autostart : Bool) :
    BatchState α × List BatchFlusherState :=
  let s0 : BatchState α :=
    { config := applyConfig defaultConfig cfg, items := [], running := false
      flushing := false, pendingTimers := 0, refPending := false }
  if autostart then startStep s0 else (s0, [])

/-- A sequence of `add` calls threaded through the instance state
(ignoring the spawned flushes; `addStep` records whether each would
trigger one). -/
def addSeq {α : Type} (s : BatchState α) (seq : List α) : BatchState α :=
  seq.foldl (fun st x => (addStep st x).state) s

/-- Modelled from the spec: the external `@marianmeres/pubsub` package is
not under src/; §1 treats it as "an opaque fan-out utility" and §9 as "a
simple observer list where ... unsubscribe removes it from that list".
Subscribers are opaque handles; subscribing appends to the observer
list. -/
def pubsubSubscribe (subs : List Nat) (id : Nat) : List Nat :=
  subs ++ [id]

/-- Modelled from the spec: unsubscribing removes the subscription from
the observer list (§9). -/
def pubsubUnsubscribe (subs : List Nat) (id : Nat) : List Nat :=
  subs.filter (fun j => decide (j ≠ id))

/-- Modelled from the spec: publishing delivers the payload to every
registered observer, in order (§9). -/
def pubsubPublish (subs : List Nat) (snap : BatchFlusherState) :
    List (Nat × BatchFlusherState) :=
  subs.map (fun id => (id, snap))

/-- `subscribe(callback)` (batch.ts lines 360-365): synchronously invoke
the callback once with the current snapshot, then register it.  Returns
the new observer list and the immediate invocations performed. -/
def subscribeStep {α : Type} (s : BatchState α) (subs : List Nat) (id : Nat) :
    List Nat × List (Nat × BatchFlusherState) :=
  (pubsubSubscribe subs id, [(id, getState s)])

/-!
## Event-loop interleaving semantics

`flush` suspends at `await this._flusher(items)` (batch.ts line 248), so
other turns of the event loop run while a flush callback is in flight.
`Sys` extends the instance state with the number of *internally
initiated* (`#doFlush`-initiated, i.e. threshold- or timer-triggered)
flush callbacks currently in flight, and `Step` gives the atomic turns
relevant to the scheduler claims.  Every constructor mirrors one
synchronous segment of the source; omitting other segments only makes
fewer states reachable, which is conservative for the existential
statements proved below.
-/

/-- Instance state plus the number of internally initiated flush
callbacks currently in flight. -/
structure Sys (α : Type) where
  batch : BatchState α
  inflight : Nat
deriving Repr, DecidableEq

/-- One turn of the event loop (see the section comment).

* `addQuiet`: an `add` whose threshold trigger does not fire.
* `addTrig`: an `add` whose threshold trigger fires; the spawned
  `#doFlush` runs synchronously through `flush()` up to the `await`
  (snapshot, clear, `flushing := true`), leaving the callback in flight.
* `startCall`: a `start()` call (batch.ts lines 287-292): sets `running`
  and arms a fresh timer via `#scheduleFlush` without cancelling a
  previously armed one (batch.ts lines 270-279 never call
  `clearTimeout`).
* `cbReturn`: an in-flight callback resolves; the `finally` block of
  `flush()` runs (`flushing := false`). -/
inductive Step {α : Type} : Sys α → Sys α → Prop where
  | addQuiet (x : α) (s : Sys α)
      (h : (addStep s.batch x).triggered = false) :
      Step s ⟨(addStep s.batch x).state, s.inflight⟩
  | addTrig (x : α) (s : Sys α)
      (h : (addStep s.batch x).triggered = true)
      (hne : (addStep s.batch x).state.items ≠ []) :
      Step s ⟨(flushBegin (addStep s.batch x).state).1, s.inflight + 1⟩
  | startCall (s : Sys α) :
      Step s ⟨(startStep s.batch).1, s.inflight⟩
  | cbReturn (s : Sys α) (h : 0 < s.inflight) :
      Step s ⟨flushFinish s.batch, s.inflight - 1⟩

/-- Reachability in the event-loop semantics. -/
def Reachable {α : Type} (a b : Sys α) : Prop :=
  Relation.ReflTransGen Step a b

/-- A concrete configuration with cap 4 and all triggers disabled (for
the explicit evaluations below). -/
def cfgCap : BatchFlusherConfig :=
  { flushIntervalMs := some 0, maxBatchSize := 4, flushThreshold := none
    strictFlush := false, logger := none }

/-- The instance state right after `new BatchFlusher(cb, {
flushIntervalMs: 0, flushThreshold: 3, maxBatchSize: 100 })` (amount
mode, autostarted, timer disabled). -/
def threshold3Start (α : Type) : BatchState α :=
  (newBatchFlusher α
    { flushIntervalMs := some 0, flushThreshold := some 3
      maxBatchSize := some 100 } true).1

/-- System right after `new BatchFlusher(cb, { flushIntervalMs: 0,
flushThreshold: 1 })`: threshold 1, timer disabled, nothing in flight. -/
def c3SysInit : Sys Nat :=
  ⟨(newBatchFlusher Nat
    { flushIntervalMs := some 0, flushThreshold := some 1 } true).1, 0⟩

/-- After one `add`: the threshold fired and its flush callback is in
flight (buffer snapshotted and cleared). -/
def c3SysMid : Sys Nat :=
  ⟨(flushBegin (addStep c3SysInit.batch 0).state).1, 1⟩

/-- After a second `add` while the first callback is still in flight: a
second threshold-triggered callback is now also in flight. -/
def c3SysBad : Sys Nat :=
  ⟨(flushBegin (addStep c3SysMid.batch 1).state).1, 2⟩

/-- System right after `new BatchFlusher(cb, { flushIntervalMs: 1000 })`:
running with one armed interval timer. -/
def c3TimerInit : Sys Nat :=
  ⟨(newBatchFlusher Nat { flushIntervalMs := some 1000 } true).1, 0⟩

/-- The same system after one further `start()` call. -/
def c3TimerBad : Sys Nat :=
  ⟨(startStep c3TimerInit.batch).1, 0⟩

/-!
## Helper lemmas
-/

theorem sliceLast_eq_takeLast {α : Type} (n : Nat) (hn : n ≠ 0) (l : List α) :
    sliceLast n l = takeLast n l := by
  simp [sliceLast, takeLast, hn]

theorem takeLast_length {α : Type} (n : Nat) (l : List α) :
    (takeLast n l).length = min n l.length := by
  unfold takeLast
  rw [List.length_drop]
  omega

theorem takeLast_of_length_le {α : Type} (n : Nat) (l : List α)
    (h : l.length ≤ n) : takeLast n l = l := by
  unfold takeLast
  rw [Nat.sub_eq_zero_of_le h, List.drop_zero]

theorem drop_one_append_single {α : Type} (done : List α) (x : α) (k : Nat)
    (hk : k < done.length) :
    (done.drop k ++ [x]).drop 1 = (done ++ [x]).drop (k + 1) := by
  rw [List.drop_append_of_le_length (by rw [List.length_drop]; omega)]
  rw [List.drop_append_of_le_length (by omega)]
  rw [List.drop_drop]

/-- One `add` step turns "last `max` of `done`" into "last `max` of
`done ++ [x]`" (for positive `max`). -/
theorem addBuffer_takeLast {α : Type} (max : Nat) (hmax : 0 < max)
    (done : List α) (x : α) :
    addBuffer max (takeLast max done) x = takeLast max (done ++ [x]) := by
  by_cases hd : done.length < max
  · -- no truncation: the whole buffer is kept
    rw [takeLast_of_length_le max done (le_of_lt hd)]
    unfold addBuffer
    rw [if_neg (by simp; omega)]
    rw [takeLast_of_length_le max (done ++ [x]) (by simp; omega)]
  · push_neg at hd
    have hlen : (takeLast max done).length = max := by
      rw [takeLast_length]; omega
    unfold addBuffer
    rw [if_pos (by simp [hlen])]
    rw [sliceLast_eq_takeLast max (by omega)]
    simp only [takeLast]
    conv_lhs =>
      rw [show (done.drop (done.length - max) ++ [x]).length - max = 1 by
        simp; omega]
    rw [drop_one_append_single done x (done.length - max) (by omega)]
    congr 1
    simp
    omega

/-- Folding `add` over a whole sequence keeps exactly the most recent
`max` items, in original relative order. -/
theorem addAll_takeLast {α : Type} (max : Nat) (hmax : 0 < max)
    (seq : List α) : ∀ done : List α,
    addAll max (takeLast max done) seq = takeLast max (done ++ seq) := by
  induction seq with
  | nil => intro done; simp [addAll]
  | cons x xs ih =>
    intro done
    show addAll max (addBuffer max (takeLast max done) x) xs = _
    rw [addBuffer_takeLast max hmax done x]
    rw [ih (done ++ [x])]
    simp

/-- `flush()` on a non-empty buffer, written out. -/
theorem flushRun_nonempty {α : Type} (s : BatchState α)
    (cb : List α → CbResult) (hne : s.items ≠ []) :
    flushRun s cb =
      { state := flushFinish (flushBegin s).1
        notifs := [getState (flushBegin s).1,
                   getState (flushFinish (flushBegin s).1)]
        calls := [s.items]
        result := cb s.items } := by
  unfold flushRun
  rw [if_neg (by simpa using hne)]
  rfl

/-- No truncation happens while the buffer stays within the cap. -/
theorem addAll_no_trunc {α : Type} (max : Nat) :
    ∀ (seq buf : List α), buf.length + seq.length ≤ max →
    addAll max buf seq = buf ++ seq := by
  intro seq
  induction seq with
  | nil => intro buf _; simp [addAll]
  | cons x xs ih =>
    intro buf h
    show addAll max (addBuffer max buf x) xs = _
    have hb : addBuffer max buf x = buf ++ [x] := by
      unfold addBuffer
      rw [if_neg (by simp at h ⊢; omega)]
    rw [hb, ih (buf ++ [x]) (by simp at h ⊢; omega)]
    simp

/-- `addSeq` only touches the buffer, via `addAll`. -/
theorem addSeq_spec {α : Type} (seq : List α) : ∀ s : BatchState α,
    (addSeq s seq).items = addAll s.config.maxBatchSize s.items seq ∧
    (addSeq s seq).config = s.config ∧
    (addSeq s seq).running = s.running ∧
    (addSeq s seq).flushing = s.flushing ∧
    (addSeq s seq).pendingTimers = s.pendingTimers ∧
    (addSeq s seq).refPending = s.refPending := by
  induction seq with
  | nil => intro s; exact ⟨rfl, rfl, rfl, rfl, rfl, rfl⟩
  | cons x xs ih =>
    intro s
    have h := ih (addStep s x).state
    exact h

/-- A fired threshold trigger implies a non-empty post-add buffer. -/
theorem thresholdTrigger_pos (threshold : Option Nat) (len : Nat)
    (h : thresholdTrigger threshold len = true) : 0 < len := by
  unfold thresholdTrigger at h
  match threshold with
  | none => exact absurd h (by simp)
  | some 0 => exact absurd h (by simp)
  | some (t + 1) => simp at h; omega

/-!
## The claims
-/

/-- C1 — Cap invariant: for every positive `maxBatchSize` and every
sequence of `add` calls from an empty buffer, the buffer is exactly the
most-recently-added `maxBatchSize` items in original relative order, so
its length never exceeds the cap (the statement holds for every `seq`,
hence for every prefix of a longer call sequence, i.e. after each call).
The add is never rejected — every added item enters the buffer before
truncation — and the truncation itself triggers no flush: the trigger
decision of `add` is exactly the threshold test on the post-truncate
length, so with the threshold disabled no `add` ever triggers,
truncation or not. -/
theorem c1_cap_invariant {α : Type} (cfg : BatchFlusherConfig)
    (hmax : 0 < cfg.maxBatchSize) (seq : List α) :
    addAll cfg.maxBatchSize [] seq = takeLast cfg.maxBatchSize seq ∧
    (addAll cfg.maxBatchSize [] seq).length ≤ cfg.maxBatchSize ∧
    (∀ (s : BatchState α) (x : α),
      (addStep s x).state.items = addBuffer s.config.maxBatchSize s.items x ∧
      (addStep s x).triggered =
        thresholdTrigger s.config.flushThreshold
          (addBuffer s.config.maxBatchSize s.items x).length) ∧
    (∀ (s : BatchState α) (x : α), s.config.flushThreshold = none →
      (addStep s x).triggered = false) := by
  have h1 : addAll cfg.maxBatchSize [] seq = takeLast cfg.maxBatchSize seq := by
    simpa [takeLast] using addAll_takeLast cfg.maxBatchSize hmax seq []
  refine ⟨h1, ?_, ?_, ?_⟩
  · rw [h1, takeLast_length]
    omega
  · intro s x
    exact ⟨rfl, rfl⟩
  · intro s x h
    simp [addStep, thresholdTrigger, h]

/-- Witness for C1: cap 4, adding `10,20,30,40,50` retains
`[20,30,40,50]`. -/
theorem c1_cap_invariant_witness :
    0 < cfgCap.maxBatchSize ∧
    addAll cfgCap.maxBatchSize [] [10, 20, 30, 40, 50] = [20, 30, 40, 50] := by
  have h := c1_cap_invariant (α := Nat) cfgCap (by decide) [10, 20, 30, 40, 50]
  exact ⟨by decide, by rw [h.1]; decide⟩

/-- C2 — Flush snapshot ordering / no double-delivery: on a non-empty
buffer, `flush()` snapshots the entire buffer and clears the live buffer
(setting `flushing`) before the callback is invoked, and the callback
receives exactly the items present at flush start, in insertion order.
Any items added while the callback is in flight (any sequence within the
cap; the count trigger is disabled so no second flush interleaves) are
excluded from that flush's snapshot, accumulate alone in the live
buffer, never re-trigger through the truncation path, and are exactly
what the next flush delivers: no item is lost or delivered twice. -/
theorem c2_flush_snapshot {α : Type} (s : BatchState α) (hne : s.items ≠ [])
    (during : List α) (hcap : during.length ≤ s.config.maxBatchSize)
    (hthr : s.config.flushThreshold = none) (cb cb2 : List α → CbResult) :
    (flushBegin s).2 = s.items ∧
    (flushBegin s).1.items = [] ∧
    (flushBegin s).1.flushing = true ∧
    (flushRun s cb).calls = [s.items] ∧
    (addSeq (flushBegin s).1 during).items = during ∧
    (∀ (st : BatchState α) (x : α), st.config = s.config →
      (addStep st x).triggered = false) ∧
    (during ≠ [] →
      (flushRun (flushFinish (addSeq (flushBegin s).1 during)) cb2).calls
        = [during]) := by
  have hitems : (addSeq (flushBegin s).1 during).items = during := by
    have h := addSeq_spec during (flushBegin s).1
    rw [h.1]
    show addAll s.config.maxBatchSize [] during = during
    simpa using addAll_no_trunc s.config.maxBatchSize during [] (by simpa using hcap)
  refine ⟨rfl, rfl, rfl, ?_, hitems, ?_, ?_⟩
  · rw [flushRun_nonempty s cb hne]
  · intro st x hst
    simp [addStep, thresholdTrigger, hst, hthr]
  · intro hd
    have hne2 : (flushFinish (addSeq (flushBegin s).1 during)).items ≠ [] := by
      show (addSeq (flushBegin s).1 during).items ≠ []
      rw [hitems]; exact hd
    rw [flushRun_nonempty _ cb2 hne2]
    show [(addSeq (flushBegin s).1 during).items] = [during]
    rw [hitems]

/-- Witness for C2: buffer `[1,2]` flushes snapshot `[1,2]`; items `3,4`
added during the callback form the next batch `[3,4]`. -/
theorem c2_flush_snapshot_witness :
    (let s : BatchState Nat :=
      { config := cfgCap, items := [1, 2], running := true, flushing := false
        pendingTimers := 0, refPending := false };
     (flushRun s (fun _ => CbResult.ok true)).calls = [[1, 2]] ∧
     (addSeq (flushBegin s).1 [3, 4]).items = [3, 4] ∧
     (flushRun (flushFinish (addSeq (flushBegin s).1 [3, 4]))
        (fun _ => CbResult.ok true)).calls = [[3, 4]]) := by
  have h := c2_flush_snapshot
    (s := { config := cfgCap, items := [1, 2], running := true
            flushing := false, pendingTimers := 0, refPending := false })
    (by decide) [3, 4] (by decide) (by decide)
    (fun _ => CbResult.ok true) (fun _ => CbResult.ok true)
  exact ⟨h.2.2.2.1, h.2.2.2.2.1, h.2.2.2.2.2.2 (by decide)⟩

/-- C4 — Explicit flush error contract: on a non-empty buffer the result
of `flush()` is exactly the callback's outcome — a thrown failure
propagates to the awaiting caller unconditionally (the `strictFlush`
setting changes nothing about `flush()` itself), a boolean resolution is
returned as is.  Success or failure, `flushing` ends up `false`, the
buffer stays cleared (the failed batch is not restored), and the
flush-start/flush-end notifications are emitted (`isFlushing` `true`
then `false`). -/
theorem c4_flush_error_contract {α : Type} (s : BatchState α)
    (cb : List α → CbResult) (hne : s.items ≠ []) :
    (flushRun s cb).result = cb s.items ∧
    (∀ b : Bool,
      (flushRun { s with config := { s.config with strictFlush := b } } cb).result
        = cb s.items) ∧
    (flushRun s cb).state.flushing = false ∧
    (flushRun s cb).state.items = [] ∧
    (flushRun s cb).notifs =
      [getState (flushBegin s).1, getState (flushFinish (flushBegin s).1)] ∧
    (flushRun s cb).notifs.map (fun n => n.isFlushing) = [true, false] := by
  rw [flushRun_nonempty s cb hne]
  refine ⟨rfl, ?_, rfl, rfl, rfl, rfl⟩
  intro b
  rw [flushRun_nonempty _ cb (by simpa using hne)]

/-- Witness for C4: a rejecting callback propagates out of `flush()`
whether or not `strictFlush` is set, leaving the buffer cleared. -/
theorem c4_flush_error_contract_witness :
    (let s : BatchState Nat :=
      { config := cfgCap, items := [7], running := true, flushing := false
        pendingTimers := 0, refPending := false };
     (flushRun s (fun _ => CbResult.thrown "boom")).result
        = CbResult.thrown "boom" ∧
     (flushRun { s with config := { s.config with strictFlush := true } }
        (fun _ => CbResult.thrown "boom")).result = CbResult.thrown "boom" ∧
     (flushRun s (fun _ => CbResult.thrown "boom")).state.items = []) := by
  have h := c4_flush_error_contract
    (s := { config := cfgCap, items := [7], running := true
            flushing := false, pendingTimers := 0, refPending := false })
    (fun _ => CbResult.thrown "boom") (by decide)
  exact ⟨h.1, h.2.1 true, h.2.2.2.1⟩

/-- C5 — Internally triggered flush policy: when an `add` fires the
threshold trigger and the flush callback rejects, the failure is caught
inside `#doFlush`: it is rethrown (into the fire-and-forget background
context — `add` returns `void` synchronously and never awaits the
spawned flush, so no exception reaches `add`'s caller in either case) if
and only if `strictFlush` is `true`, and otherwise logged at warning
level with the stringified error and swallowed.  Either way the
accumulator is left consistent: buffer already cleared, `flushing` reset
to `false`. -/
theorem c5_internal_flush_policy {α : Type} (s : BatchState α) (x : α)
    (cb : List α → CbResult) (e : String)
    (htrig : (addStep s x).triggered = true)
    (hcb : ∀ l, cb l = CbResult.thrown e) :
    (addFull s x cb).rethrown
      = (if s.config.strictFlush then some e else none) ∧
    (addFull s x cb).warnLogged
      = (if s.config.strictFlush then none
         else some ("[BatchFlusher] Flush error ignored", e)) ∧
    (addFull s x cb).state.items = [] ∧
    (addFull s x cb).state.flushing = false := by
  have hne : (addStep s x).state.items ≠ [] := by
    have hpos := thresholdTrigger_pos s.config.flushThreshold
      (addBuffer s.config.maxBatchSize s.items x).length htrig
    show addBuffer s.config.maxBatchSize s.items x ≠ []
    intro hnil
    rw [hnil] at hpos
    simp at hpos
  unfold addFull doFlush
  simp only [htrig, if_true, flushRun_nonempty _ cb hne, hcb]
  by_cases hs : s.config.strictFlush
  · have hs' : (addStep s x).state.config.strictFlush = true := hs
    simp [hs', hs, flushFinish, flushBegin]
  · have hs' : (addStep s x).state.config.strictFlush = false := by
      simpa using hs
    simp [hs', hs, flushFinish, flushBegin]

/-- Witness for C5: threshold 1, rejecting callback; with the default
`strictFlush = false` the failure is logged and swallowed, and the
buffer ends up cleared with `flushing` reset. -/
theorem c5_internal_flush_policy_witness :
    (let s : BatchState Nat :=
      { config := { flushIntervalMs := some 0, maxBatchSize := 100
                    flushThreshold := some 1, strictFlush := false
                    logger := none }
        items := [], running := true, flushing := false
        pendingTimers := 0, refPending := false };
     (addFull s 5 (fun _ => CbResult.thrown "boom")).rethrown = none ∧
     (addFull s 5 (fun _ => CbResult.thrown "boom")).warnLogged
        = some ("[BatchFlusher] Flush error ignored", "boom") ∧
     (addFull s 5 (fun _ => CbResult.thrown "boom")).state.items = [] ∧
     (addFull s 5 (fun _ => CbResult.thrown "boom")).state.flushing = false) := by
  have h := c5_internal_flush_policy
    { config := { flushIntervalMs := some 0, maxBatchSize := 100
                  flushThreshold := some 1, strictFlush := false
                  logger := none }
      items := [], running := true, flushing := false
      pendingTimers := 0, refPending := false }
    5 (fun _ => CbResult.thrown "boom") "boom"
    (by decide) (fun _ => rfl)
  exact ⟨h.1, h.2.1, h.2.2.1, h.2.2.2⟩

/-- C6 — Threshold trigger: on the accumulator constructed with
`flushThreshold = 3` and the timer disabled, the first two `add` calls
trigger no flush and make no callback call; the third fires the trigger,
spawns exactly one flush call receiving `[a, b, c]` in insertion order
(while `add` itself returns synchronously — the flush runs in the
fire-and-forget `#doFlush` context), and afterwards the buffer size is
0.  A threshold of `0` or absent never triggers, for any state and any
`add`. -/
theorem c6_threshold_trigger {α : Type} (a b c : α) (cb : List α → CbResult) :
    (addFull (threshold3Start α) a cb).triggered = false ∧
    (addFull (threshold3Start α) a cb).calls = [] ∧
    (addFull (addFull (threshold3Start α) a cb).state b cb).triggered = false ∧
    (addFull (addFull (threshold3Start α) a cb).state b cb).calls = [] ∧
    (addFull (addFull (addFull (threshold3Start α) a cb).state b cb).state
        c cb).triggered = true ∧
    (addFull (addFull (addFull (threshold3Start α) a cb).state b cb).state
        c cb).calls = [[a, b, c]] ∧
    (getState (addFull (addFull (addFull (threshold3Start α) a cb).state b
        cb).state c cb).state).size = 0 ∧
    (∀ (s : BatchState α) (x : α),
      s.config.flushThreshold = none ∨ s.config.flushThreshold = some 0 →
      (addStep s x).triggered = false) := by
  refine ⟨?_, ?_, ?_, ?_, ?_, ?_, ?_, ?_⟩
  all_goals first
    | (intro s x h
       rcases h with h | h <;> simp [addStep, thresholdTrigger, h])
    | (cases hr : cb [a, b, c] <;>
        simp [threshold3Start, newBatchFlusher, startStep, scheduleFlush,
          applyConfig, defaultConfig, addFull, addStep, addBuffer, sliceLast,
          thresholdTrigger, doFlush, flushRun, flushBegin, flushFinish,
          getState, hr])

/-- Witness for C6: concrete run with items `1, 2, 3`. -/
theorem c6_threshold_trigger_witness :
    (addFull (addFull (addFull (threshold3Start Nat) 1
        (fun _ => CbResult.ok true)).state 2 (fun _ => CbResult.ok true)).state
        3 (fun _ => CbResult.ok true)).calls = [[1, 2, 3]] ∧
    (getState (addFull (addFull (addFull (threshold3Start Nat) 1
        (fun _ => CbResult.ok true)).state 2 (fun _ => CbResult.ok true)).state
        3 (fun _ => CbResult.ok true)).state).size = 0 := by
  have h := c6_threshold_trigger 1 2 3 (fun _ => CbResult.ok true)
  exact ⟨h.2.2.2.2.2.1, h.2.2.2.2.2.2.1⟩

/-- C7 — Drain semantics: `drain()` awaits `flush()` and then calls
`stop()`.  On a non-empty, running accumulator with its armed interval
timer, when the flush callback resolves to `b`, `drain()` returns
exactly `b`, leaves the buffer empty, leaves `isRunning` false and
cancels the armed timer. -/
theorem c7_drain {α : Type} (s : BatchState α) (cb : List α → CbResult)
    (b : Bool) (hne : s.items ≠ []) (_hrun : s.running = true)
    (htimer : s.pendingTimers = 1) (href : s.refPending = true)
    (hcb : cb s.items = CbResult.ok b) :
    (drainRun s cb).result = CbResult.ok b ∧
    (drainRun s cb).state.items = [] ∧
    (drainRun s cb).state.running = false ∧
    (drainRun s cb).state.pendingTimers = 0 ∧
    (drainRun s cb).state.refPending = false := by
  unfold drainRun
  rw [flushRun_nonempty s cb hne, hcb]
  simp [stopStep, clearTimer, flushFinish, flushBegin, htimer, href]

/-- Witness for C7: drain of `[1,2,3]` on a running accumulator returns
the callback's `true`, empties the buffer, stops and disarms. -/
theorem c7_drain_witness :
    (let s : BatchState Nat :=
      { config := defaultConfig, items := [1, 2, 3], running := true
        flushing := false, pendingTimers := 1, refPending := true };
     (drainRun s (fun _ => CbResult.ok true)).result = CbResult.ok true ∧
     (drainRun s (fun _ => CbResult.ok true)).state.items = [] ∧
     (drainRun s (fun _ => CbResult.ok true)).state.running = false ∧
     (drainRun s (fun _ => CbResult.ok true)).state.pendingTimers = 0) := by
  have h := c7_drain
    (s := { config := defaultConfig, items := [1, 2, 3], running := true
            flushing := false, pendingTimers := 1, refPending := true })
    (fun _ => CbResult.ok true) true (by decide) rfl rfl rfl rfl
  exact ⟨h.1, h.2.1, h.2.2.1, h.2.2.2.1⟩

/-- C10 — Drain on flush failure: when the flush callback rejects,
`drain()` propagates the failure before `stop()` is ever invoked: the
running flag, the armed-timer count and the timer reference are exactly
as before the call (in particular a running accumulator stays running),
while the buffer was already cleared and `flushing` reset inside
`flush()`. -/
theorem c10_drain_failure {α : Type} (s : BatchState α)
    (cb : List α → CbResult) (e : String) (hne : s.items ≠ [])
    (hcb : cb s.items = CbResult.thrown e) :
    (drainRun s cb).result = CbResult.thrown e ∧
    (drainRun s cb).state.running = s.running ∧
    (drainRun s cb).state.pendingTimers = s.pendingTimers ∧
    (drainRun s cb).state.refPending = s.refPending ∧
    (drainRun s cb).state.items = [] ∧
    (drainRun s cb).state.flushing = false := by
  unfold drainRun
  rw [flushRun_nonempty s cb hne, hcb]
  simp [flushFinish, flushBegin]

/-- Witness for C10: a rejecting drain leaves the accumulator running
with its timer still armed, buffer cleared. -/
theorem c10_drain_failure_witness :
    (let s : BatchState Nat :=
      { config := defaultConfig, items := [9], running := true
        flushing := false, pendingTimers := 1, refPending := true };
     (drainRun s (fun _ => CbResult.thrown "down")).result
        = CbResult.thrown "down" ∧
     (drainRun s (fun _ => CbResult.thrown "down")).state.running = true ∧
     (drainRun s (fun _ => CbResult.thrown "down")).state.pendingTimers = 1 ∧
     (drainRun s (fun _ => CbResult.thrown "down")).state.items = []) := by
  have h := c10_drain_failure
    (s := { config := defaultConfig, items := [9], running := true
            flushing := false, pendingTimers := 1, refPending := true })
    (fun _ => CbResult.thrown "down") "down" (by decide) rfl
  exact ⟨h.1, h.2.1, h.2.2.1, h.2.2.2.2.1⟩

/-- C8 — Subscription contract: `subscribe(cb)` invokes the callback
exactly once, synchronously, with the current snapshot, then registers
it.  Each of `add` (post-truncate), `reset`, flush start, flush end,
`start` and `stop` emits exactly one notification carrying the
then-current snapshot, and a publish delivers each notification to a
registered subscriber exactly once; after the returned unsubscribe
function runs, no delivery reaches that subscriber any more. -/
theorem c8_subscription {α : Type} (s : BatchState α) (subs : List Nat)
    (id : Nat) (hid : id ∉ subs) (x : α) (cb : List α → CbResult)
    (hne : s.items ≠ []) :
    (subscribeStep s subs id).2 = [(id, getState s)] ∧
    (addStep s x).notifs = [getState (addStep s x).state] ∧
    (resetStep s).2 = [getState (resetStep s).1] ∧
    (startStep s).2 = [getState { s with running := true }] ∧
    (stopStep s).2 = [getState (stopStep s).1] ∧
    (flushRun s cb).notifs =
      [getState (flushBegin s).1, getState (flushFinish (flushBegin s).1)] ∧
    (∀ snap, ((pubsubPublish (pubsubSubscribe subs id) snap).map
        Prod.fst).count id = 1) ∧
    (∀ snap, ((pubsubPublish (pubsubUnsubscribe (pubsubSubscribe subs id) id)
        snap).map Prod.fst).count id = 0) := by
  refine ⟨rfl, rfl, rfl, rfl, rfl, ?_, ?_, ?_⟩
  · rw [flushRun_nonempty s cb hne]
  · intro snap
    have hfst : ((pubsubPublish (pubsubSubscribe subs id) snap).map
        Prod.fst) = pubsubSubscribe subs id := by
      simp [pubsubPublish, Function.comp_def]
    rw [hfst]
    unfold pubsubSubscribe
    rw [List.count_append, List.count_eq_zero.mpr hid]
    simp
  · intro snap
    have hfst : ((pubsubPublish (pubsubUnsubscribe (pubsubSubscribe subs id)
        id) snap).map Prod.fst) = pubsubUnsubscribe (pubsubSubscribe subs id)
        id := by
      simp [pubsubPublish, Function.comp_def]
    rw [hfst]
    rw [List.count_eq_zero]
    intro hmem
    unfold pubsubUnsubscribe at hmem
    have := List.of_mem_filter hmem
    simp at this

/-- Witness for C8: one fresh subscriber over an empty observer list on a
one-item buffer. -/
theorem c8_subscription_witness :
    (let s : BatchState Nat :=
      { config := defaultConfig, items := [4], running := true
        flushing := false, pendingTimers := 1, refPending := true };
     (subscribeStep s [] 0).2 = [(0, getState s)] ∧
     (flushRun s (fun _ => CbResult.ok true)).notifs =
       [getState (flushBegin s).1, getState (flushFinish (flushBegin s).1)] ∧
     ((pubsubPublish (pubsubSubscribe [] 0) (getState s)).map
        Prod.fst).count 0 = 1 ∧
     ((pubsubPublish (pubsubUnsubscribe (pubsubSubscribe [] 0) 0)
        (getState s)).map Prod.fst).count 0 = 0) := by
  have h := c8_subscription
    { config := defaultConfig, items := [4], running := true
      flushing := false, pendingTimers := 1, refPending := true }
    [] 0 (by decide) 4 (fun _ => CbResult.ok true)
    (by decide)
  exact ⟨h.1, h.2.2.2.2.2.1, h.2.2.2.2.2.2.1 (getState _),
    h.2.2.2.2.2.2.2 (getState _)⟩

/-- C9 — Configure frame: for every partial configuration, exactly the
defined keys overwrite the corresponding stored configuration values
(`none`, i.e. an absent or `undefined` key, leaves the prior setting
unchanged, key by key), while the buffer, the running and flushing
flags and the timers are untouched and no notification is emitted. -/
theorem c9_configure_frame {α : Type} (s : BatchState α) (p : ConfigUpdate) :
    (configureStep s p).2 = [] ∧
    (configureStep s p).1.items = s.items ∧
    (configureStep s p).1.running = s.running ∧
    (configureStep s p).1.flushing = s.flushing ∧
    (configureStep s p).1.pendingTimers = s.pendingTimers ∧
    (configureStep s p).1.refPending = s.refPending ∧
    (configureStep s p).1.config.flushIntervalMs =
      (match p.flushIntervalMs with
        | some v => some v
        | none => s.config.flushIntervalMs) ∧
    (configureStep s p).1.config.maxBatchSize =
      (match p.maxBatchSize with
        | some v => v
        | none => s.config.maxBatchSize) ∧
    (configureStep s p).1.config.flushThreshold =
      (match p.flushThreshold with
        | some v => some v
        | none => s.config.flushThreshold) ∧
    (configureStep s p).1.config.strictFlush =
      (match p.strictFlush with
        | some v => v
        | none => s.config.strictFlush) ∧
    (configureStep s p).1.config.logger =
      (match p.logger with
        | some v => some v
        | none => s.config.logger) := by
  obtain ⟨pi, pm, pt, ps, pl⟩ := p
  cases pi <;> cases pm <;> cases pt <;> cases ps <;> cases pl <;>
    simp [configureStep, applyConfig]

/-- C3 is false on the code.  First half: from the freshly constructed
accumulator with `flushThreshold = 1` (`c3SysInit`), two `add` calls
whose threshold-triggered flush callbacks have not yet resolved reach a
state (`c3SysBad`) with TWO internally initiated flush callbacks in
flight at the same instant — `flush()` never consults `#flushing` and
`#doFlush` is fire-and-forget, so nothing serializes them.  Second half:
on the running accumulator with one armed interval timer
(`c3TimerInit`), a further `start()` call reaches `c3TimerBad` with TWO
armed timers: `#scheduleFlush` overwrites the `#flushTimer` reference
without ever calling `clearTimeout` on the previous timer, so an
additional concurrent timer results, not a single re-armed one. -/
theorem c3_counterexample :
    (Reachable c3SysInit c3SysBad ∧ c3SysBad.inflight = 2) ∧
    (Reachable c3TimerInit c3TimerBad ∧
      c3TimerInit.batch.running = true ∧
      c3TimerInit.batch.pendingTimers = 1 ∧
      c3TimerBad.batch.pendingTimers = 2) := by
  refine ⟨⟨?_, by decide⟩, ?_, by decide, by decide, by decide⟩
  · exact Relation.ReflTransGen.head
      (Step.addTrig 0 c3SysInit (by decide) (by decide))
      (Relation.ReflTransGen.single
        (Step.addTrig 1 c3SysMid (by decide) (by decide)))
  · exact Relation.ReflTransGen.single (Step.startCall c3TimerInit)

/-- C3 amended: more than one scheduler-initiated flush callback can be
in flight at an instant (two threshold-triggered callbacks overlap as
soon as the second trigger fires during the first in-flight callback);
and calling `start()` while already running arms an additional interval
timer alongside the previously armed one (which is never cancelled),
rather than leaving a single armed timer. -/
theorem c3_amended :
    (∃ sys : Sys Nat, Reachable c3SysInit sys ∧ sys.inflight = 2) ∧
    (∀ (α : Type) (s : BatchState α) (k : Nat),
      s.config.flushIntervalMs = some (k + 1) →
      (startStep s).1.pendingTimers = s.pendingTimers + 1 ∧
      (startStep s).1.running = true) := by
  constructor
  · refine ⟨c3SysBad, ?_, by decide⟩
    exact Relation.ReflTransGen.head
      (Step.addTrig 2 c3SysInit (by decide) (by decide))
      (Relation.ReflTransGen.single
        (Step.addTrig 3 c3SysMid (by decide) (by decide)))
  · intro α s k h
    simp [startStep, scheduleFlush, h]

/-- Witness for the amended C3: `start()` on the freshly constructed
running accumulator (interval 1000, one armed timer) leaves two armed
timers. -/
theorem c3_amended_witness :
    c3TimerInit.batch.config.flushIntervalMs = some (999 + 1) ∧
    (startStep c3TimerInit.batch).1.pendingTimers
      = c3TimerInit.batch.pendingTimers + 1 ∧
    (startStep c3TimerInit.batch).1.running = true := by
  have h := c3_amended.2 Nat c3TimerInit.batch 999 (by decide)
  exact ⟨by decide, h.1, h.2⟩

end Batch
